import Mathlib

/-!
Verification of the JS-Filter browser-extension popup against its design
specification.  The JavaScript sources (`scripts/blocking.js`, the two
popup-script variants in `scripts/script.js`, and the save-variant popup
script) are shallowly embedded below: JS objects used as string-keyed maps
become association lists with JS insertion/overwrite/delete semantics,
callback-style asynchronous browser APIs become explicit outcome values,
and the browser's `URL` constructor (an external platform primitive) is a
parameter `urlHref : String → String → Option String` returning `none`
exactly when the constructor throws.
-/

/-! ## Blocked Map: a JS object used as a map from URL string to Bool -/

/-- A JS object used as a dictionary: an association list whose keys are
unique and kept in insertion order. -/
abbrev BlockedMap := List (String × Bool)

/-- JS property assignment `m[k] = v`: overwrite in place when the key is
present, otherwise append the new key at the end (JS insertion order). -/
def objSet : BlockedMap → String → Bool → BlockedMap
  | [], k, v => [(k, v)]
  | (k₀, v₀) :: rest, k, v =>
      if k₀ = k then (k, v) :: rest else (k₀, v₀) :: objSet rest k v

/-- JS `delete m[k]`: remove the (unique) binding of `k`, if any. -/
def objDelete : BlockedMap → String → BlockedMap
  | [], _ => []
  | (k₀, v₀) :: rest, k =>
      if k₀ = k then rest else (k₀, v₀) :: objDelete rest k

/-- The keys of a JS object. -/
def objKeys (m : BlockedMap) : List String := m.map Prod.fst

/-! ## Block Store (blocking.js)

The storage record under key `"blocked_scripts"` is modelled as
`Option BlockedMap`: `none` when nothing has been stored yet. -/

/-- `getBlockedMap`: read the stored record and default to the empty
object (`res[STORAGE_KEY] || {}`). -/
def getBlockedMap (store : Option BlockedMap) : BlockedMap := store.getD []

/-- `setBlockedMap`: store the map under the global key. -/
def setBlockedMap (_store : Option BlockedMap) (m : BlockedMap) : Option BlockedMap :=
  some m

/-- `updateBlockedEntry(urlKey, shouldBlock)`: get–modify–set on the stored
map; returns the new store together with the map the function returns. -/
def updateBlockedEntry (store : Option BlockedMap) (urlKey : String)
    (shouldBlock : Bool) : Option BlockedMap × BlockedMap :=
  let map := getBlockedMap store
  let map := if shouldBlock then objSet map urlKey true else objDelete map urlKey
  (setBlockedMap store map, map)

/-! ## URL resolution (blocking.js `toAbsolute` and the probe's `abs`)

`urlHref raw base` models `new URL(raw, base).href`: `some href` on
success, `none` when the constructor throws. -/

/-- `toAbsolute(rawUrl, base)`: `new URL(rawUrl, base).href`, falling back
to `rawUrl || ""` (which on strings is `rawUrl` itself) when the
constructor throws. -/
def toAbsolute (urlHref : String → String → Option String)
    (rawUrl base : String) : String :=
  match urlHref rawUrl base with
  | some href => href
  | none => rawUrl

/-- The probe's inner `abs(u)`: `new URL(u, location.href).href` with the
same fallback, `loc` being the page's `location.href`. -/
def pageAbs (urlHref : String → String → Option String)
    (loc u : String) : String :=
  match urlHref u loc with
  | some href => href
  | none => u

/-! ## Page Mutator probe (blocking.js `removeScriptsInTab`) -/

/-- A `<script>` element in the page; `src = ""` models a script with no
(or an empty) `src`, which JS treats as falsy. -/
structure ScriptElem where
  src : String
deriving DecidableEq, Repr

/-- `new Set(blockedUrls.map(abs))`: every incoming blocked URL resolved
against the page location. -/
def blockedSetOf (urlHref : String → String → Option String)
    (loc : String) (blockedUrls : List String) : List String :=
  blockedUrls.map (pageAbs urlHref loc)

/-- The probe's first pass: remove every existing script whose truthy
`src` resolves into the blocked set; the remaining document is returned. -/
def removeExistingScripts (urlHref : String → String → Option String)
    (loc : String) (blockedUrls : List String)
    (scripts : List ScriptElem) : List ScriptElem :=
  scripts.filter fun s =>
    ! (s.src != "" && (blockedSetOf urlHref loc blockedUrls).contains (pageAbs urlHref loc s.src))

/-- A DOM node handed to the mutation observer; `tagName = ""` models a
node with no tag name (text node), falsy in JS. -/
structure DomNode where
  tagName : String
  src : String
deriving DecidableEq, Repr

/-- The observer callback's decision for one added node: lowercase tag is
`script`, `src` truthy, and the resolved `src` is in the blocked set. -/
def observerRemovesNode (urlHref : String → String → Option String)
    (loc : String) (blockedUrls : List String) (n : DomNode) : Bool :=
  n.tagName != "" && n.tagName.toLower == "script" &&
    (n.src != "" && (blockedSetOf urlHref loc blockedUrls).contains (pageAbs urlHref loc n.src))

/-- Result of one `removeScriptsInTab` call: whether a probe injection was
attempted, the document's scripts afterwards, and whether the mutation
observer got installed. -/
structure MutatorResult where
  injected : Bool
  scripts : List ScriptElem
  observerInstalled : Bool
deriving DecidableEq, Repr

/-- `removeScriptsInTab(tabId, urls)`: returns immediately when `tabId` is
falsy (`none` or `0`) or `urls` is empty; otherwise injects the probe,
which filters the existing scripts and installs the observer. -/
def removeScriptsInTab (urlHref : String → String → Option String)
    (tabId : Option Nat) (urls : List String)
    (loc : String) (doc : List ScriptElem) : MutatorResult :=
  if tabId.getD 0 = 0 ∨ urls = [] then ⟨false, doc, false⟩
  else ⟨true, removeExistingScripts urlHref loc urls doc, true⟩

/-! ## Helper lemmas -/

theorem map_eq_self_of_fixed {α : Type} (f : α → α) :
    ∀ (l : List α), (∀ u ∈ l, f u = u) → l.map f = l := by
  intro l h
  induction l with
  | nil => rfl
  | cons a as ih =>
      simp only [List.map_cons]
      rw [h a (List.mem_cons_self a as), ih]
      intro u hu
      exact h u (List.mem_cons_of_mem a hu)

theorem objSet_eq_append (m : BlockedMap) (k : String) (v : Bool)
    (h : k ∉ objKeys m) : objSet m k v = m ++ [(k, v)] := by
  induction m with
  | nil => rfl
  | cons p rest ih =>
      obtain ⟨k₀, v₀⟩ := p
      simp only [objKeys, List.map_cons, List.mem_cons] at h
      push_neg at h
      simp only [objSet, if_neg (Ne.symm h.1), List.cons_append, List.cons.injEq, true_and]
      exact ih h.2

theorem objDelete_append_last (m : BlockedMap) (k : String) (v : Bool)
    (h : k ∉ objKeys m) : objDelete (m ++ [(k, v)]) k = m := by
  induction m with
  | nil => simp [objDelete]
  | cons p rest ih =>
      obtain ⟨k₀, v₀⟩ := p
      simp only [objKeys, List.map_cons, List.mem_cons] at h
      push_neg at h
      simp only [List.cons_append, objDelete, if_neg (Ne.symm h.1), List.cons.injEq, true_and]
      exact ih h.2

/-- A concrete platform resolver used in witnesses: every URL is its own
absolute form. -/
def idResolver : String → String → Option String := fun u _ => some u

/-! ## C1: the Page Mutator probe removes exactly the blocked scripts -/

/-- C1: for a blocked set whose members are fixed points of resolution at
the page location (they are already absolute), an existing script survives
the probe iff it does not have a truthy `src` resolving into the blocked
set, and the installed observer removes an added node iff it is a script
element with a truthy `src` resolving into the blocked set. -/
theorem page_mutator_removes_exactly_blocked
    (urlHref : String → String → Option String) (loc : String)
    (blockedUrls : List String) (scripts : List ScriptElem) (n : DomNode)
    (hfix : ∀ u ∈ blockedUrls, pageAbs urlHref loc u = u) :
    (∀ s ∈ scripts,
        (s ∈ removeExistingScripts urlHref loc blockedUrls scripts ↔
          ¬ (s.src ≠ "" ∧ pageAbs urlHref loc s.src ∈ blockedUrls)))
    ∧ (observerRemovesNode urlHref loc blockedUrls n = true ↔
        (n.tagName ≠ "" ∧ n.tagName.toLower = "script" ∧
          n.src ≠ "" ∧ pageAbs urlHref loc n.src ∈ blockedUrls)) := by
  have hset : blockedSetOf urlHref loc blockedUrls = blockedUrls :=
    map_eq_self_of_fixed _ blockedUrls hfix
  constructor
  · intro s hs
    rw [removeExistingScripts, hset, List.mem_filter]
    simp only [hs, true_and, List.contains, List.elem_eq_mem, Bool.not_eq_true',
      Bool.and_eq_false_iff, bne_eq_false_iff_eq, decide_eq_false_iff_not, ne_eq]
    tauto
  · rw [observerRemovesNode, hset]
    simp only [Bool.and_eq_true, bne_iff_ne, ne_eq, beq_iff_eq, List.contains,
      List.elem_eq_mem, decide_eq_true_eq]
    tauto

/-- C1 witness: a concrete page with one blocked and one unrelated script. -/
theorem page_mutator_removes_exactly_blocked_witness :
    (∀ u ∈ ["https://cdn.a/x.js"], pageAbs idResolver ("https://p/") u = u)
    ∧ ((∀ s ∈ [ScriptElem.mk ("https://cdn.a/x.js"), ScriptElem.mk ("https://cdn.b/y.js")],
          (s ∈ removeExistingScripts idResolver ("https://p/") ["https://cdn.a/x.js"]
                [ScriptElem.mk ("https://cdn.a/x.js"), ScriptElem.mk ("https://cdn.b/y.js")] ↔
            ¬ (s.src ≠ "" ∧ pageAbs idResolver ("https://p/") s.src ∈ ["https://cdn.a/x.js"])))
        ∧ (observerRemovesNode idResolver ("https://p/") ["https://cdn.a/x.js"]
              (DomNode.mk ("SCRIPT") ("https://cdn.a/x.js")) = true ↔
            ((DomNode.mk ("SCRIPT") ("https://cdn.a/x.js")).tagName ≠ "" ∧
              (DomNode.mk ("SCRIPT") ("https://cdn.a/x.js")).tagName.toLower = "script" ∧
              (DomNode.mk ("SCRIPT") ("https://cdn.a/x.js")).src ≠ "" ∧
              pageAbs idResolver ("https://p/") (DomNode.mk ("SCRIPT") ("https://cdn.a/x.js")).src
                ∈ ["https://cdn.a/x.js"]))) :=
  ⟨by decide, page_mutator_removes_exactly_blocked idResolver ("https://p/")
      ["https://cdn.a/x.js"] _ _ (by decide)⟩

/-! ## C6: toggling a checkbox on then off restores the stored map -/

/-- C6: starting from any store whose map lacks key `u`, blocking `u` and
then unblocking it returns both the stored record and the returned map to
the original map. -/
theorem toggle_on_off_restores_map (store : Option BlockedMap) (u : String)
    (h : u ∉ objKeys (getBlockedMap store)) :
    updateBlockedEntry ((updateBlockedEntry store u true).1) u false =
      (some (getBlockedMap store), getBlockedMap store) := by
  show (some (objDelete (objSet (getBlockedMap store) u true) u),
        objDelete (objSet (getBlockedMap store) u true) u) =
      (some (getBlockedMap store), getBlockedMap store)
  rw [objSet_eq_append _ _ _ h, objDelete_append_last _ _ _ h]

/-- C6 witness: a concrete two-entry map and a fresh key. -/
theorem toggle_on_off_restores_map_witness :
    ("https://cdn.b/y.js") ∉ objKeys (getBlockedMap (some [(("https://cdn.a/x.js"), true)]))
    ∧ updateBlockedEntry ((updateBlockedEntry (some [(("https://cdn.a/x.js"), true)])
          ("https://cdn.b/y.js") true).1) ("https://cdn.b/y.js") false =
        (some (getBlockedMap (some [(("https://cdn.a/x.js"), true)])),
          getBlockedMap (some [(("https://cdn.a/x.js"), true)])) :=
  ⟨by decide, toggle_on_off_restores_map (some [(("https://cdn.a/x.js"), true)])
      ("https://cdn.b/y.js") (by decide)⟩

/-! ## C10: removeScriptsInTab guard leaves the page untouched -/

/-- C10: when the tab id is falsy or the URL list is empty, the call
performs no injection, removes nothing, and installs no observer. -/
theorem remove_scripts_guard_no_effect
    (urlHref : String → String → Option String) (tabId : Option Nat)
    (urls : List String) (loc : String) (doc : List ScriptElem)
    (h : tabId.getD 0 = 0 ∨ urls = []) :
    removeScriptsInTab urlHref tabId urls loc doc = ⟨false, doc, false⟩ := by
  simp only [removeScriptsInTab, if_pos h]

/-- C10 witness: a missing tab id with a non-empty URL list. -/
theorem remove_scripts_guard_no_effect_witness :
    ((none : Option Nat).getD 0 = 0 ∨ (["https://cdn.a/x.js"] : List String) = [])
    ∧ removeScriptsInTab idResolver none ["https://cdn.a/x.js"] ("https://p/")
        [ScriptElem.mk ("https://cdn.a/x.js")] =
      ⟨false, [ScriptElem.mk ("https://cdn.a/x.js")], false⟩ :=
  ⟨Or.inl rfl, remove_scripts_guard_no_effect idResolver none _ _ _ (Or.inl rfl)⟩

/-! ## List Renderer (script.js variants and the save-variant popup)

`src.split("/").pop()` with the JS split semantics: `splitOn` never
returns an empty list, so `pop` is the last element. -/

/-- `src.split("/").pop()`. -/
def popSegment (src : String) : String := (src.splitOn ("/")).getLastD ("")

/-- The save-variant's visible label: `src.split("/").pop() || src`. -/
def displayLabel (src : String) : String :=
  let p := popSegment src
  if p = "" then src else p

/-- One rendered list row: an informational message (no checkbox), or a
script entry carrying the full URL in its `title` and a checkbox. -/
inductive Row where
  | info (text : String)
  | entry (title : String) (label : String)
deriving DecidableEq, Repr

/-- The injected enumeration probe:
`Array.from(document.scripts).map(s => s.src).filter(Boolean)`. -/
def probeScriptSrcs (doc : List ScriptElem) : List String :=
  (doc.map ScriptElem.src).filter (fun s => s != "")

/-- The save-variant renderer: the single informational row when the
probe list is empty, otherwise one entry row per list element. -/
def renderSaveRows (scripts : List String) : List Row :=
  if scripts.length = 0 then [Row.info ("No external JS files found.")]
  else scripts.map fun src => Row.entry src (displayLabel src)

/-- The script.js renderers (both variants): same shape, label without
the `|| src` fallback. -/
def renderV2Rows (scripts : List String) : List Row :=
  if scripts.length = 0 then [Row.info ("No external JS files found.")]
  else scripts.map fun src => Row.entry src (popSegment src)

/-! ## Row construction: safe DOM assignment vs innerHTML templating -/

/-- The save-variant's structured row: `span.title = src` and
`span.textContent = src.split("/").pop() || src`, plus a checkbox. The
URL is assigned as an attribute value and as plain text, never parsed. -/
structure SafeRow where
  title : String
  text : String
  hasCheckbox : Bool
deriving DecidableEq, Repr

/-- part_000 row builder (`document.createElement` + property
assignment). -/
def buildRowSafe (src : String) : SafeRow :=
  ⟨src, displayLabel src, true⟩

/-- The script.js row builders: the raw URL is spliced into an HTML
template string which the browser then parses
(`li.innerHTML = ...<span title="${src}">${src.split("/").pop()}</span>...`). -/
def rowInnerHTML (src : String) : String :=
  "\n                    <span title=\"" ++ src ++ "\">" ++ popSegment src ++
    "</span>\n                    <input type=\"checkbox\" />\n                "

/-- Characters up to the first double quote: how an HTML parser delimits
a double-quoted attribute value. -/
def untilQuote : List Char → List Char
  | [] => []
  | c :: cs => if c = '"' then [] else c :: untilQuote cs

/-- The characters of the attribute opener `title="`. -/
def titleMarker : List Char := ['t', 'i', 't', 'l', 'e', '=', '"']

/-- The suffix after the first occurrence of `marker`, if any. -/
def afterMarker (marker : List Char) : List Char → Option (List Char)
  | [] => none
  | c :: cs =>
      if marker.isPrefixOf (c :: cs) then some ((c :: cs).drop marker.length)
      else afterMarker marker cs

/-- Minimal model of the browser's HTML parsing of the template: the
`title` attribute value the parser recovers is the text after the first
`title="` up to the next `"`. -/
def titleAttrValue (html : String) : String :=
  match afterMarker titleMarker html.data with
  | some rest => String.mk (untilQuote rest)
  | none => ""

/-! ## Popup DOMContentLoaded handlers (three variants) -/

/-- The active tab as reported by `chrome.tabs.query`: possibly missing
id and url fields. -/
structure Tab where
  id : Option Nat
  url : Option String
deriving DecidableEq, Repr

/-- What one popup open produced: the list rows and whether
`chrome.scripting.executeScript` was invoked. -/
structure HandlerOutcome where
  rows : List Row
  injected : Bool
deriving DecidableEq, Repr

/-- `!tab?.id`: the guard of the guarded handlers; true when the query
returned no tab, or a tab without id, or id `0`. -/
def tabIdFalsy : Option Tab → Prop
  | none => True
  | some t => t.id = none ∨ t.id = some 0

instance : DecidablePred tabIdFalsy := by
  intro t
  cases t with
  | none => exact isTrue trivial
  | some t => exact inferInstanceAs (Decidable (_ ∨ _))

/-- The save-variant handler (part_000): guard on `!tab?.id`, inject,
then render; an injection rejection is caught and shown as an error
row. `inj` is the injection outcome (`ok` carries
`results?.[0]?.result || []`). -/
def handlerSave (tab : Option Tab) (inj : Except String (List String)) :
    HandlerOutcome :=
  match tab with
  | none => ⟨[Row.info ("No active tab found.")], false⟩
  | some t =>
    match t.id with
    | none => ⟨[Row.info ("No active tab found.")], false⟩
    | some i =>
      if i = 0 then ⟨[Row.info ("No active tab found.")], false⟩
      else
        match inj with
        | Except.error msg => ⟨[Row.info (("Error: ") ++ msg)], true⟩
        | Except.ok scripts => ⟨renderSaveRows scripts, true⟩

/-- The second script.js variant: same guarded structure, innerHTML row
template. -/
def handlerV2 (tab : Option Tab) (inj : Except String (List String)) :
    HandlerOutcome :=
  match tab with
  | none => ⟨[Row.info ("No active tab found.")], false⟩
  | some t =>
    match t.id with
    | none => ⟨[Row.info ("No active tab found.")], false⟩
    | some i =>
      if i = 0 then ⟨[Row.info ("No active tab found.")], false⟩
      else
        match inj with
        | Except.error msg => ⟨[Row.info (("Error: ") ++ msg)], true⟩
        | Except.ok scripts => ⟨renderV2Rows scripts, true⟩

/-- The first script.js variant: no guard and no try/catch. When the
query returns no tab at all, `tab.id` throws an uncaught TypeError;
otherwise `executeScript` is always invoked (with whatever `tab.id`
holds), and its callback coalesces a failed injection to `[]`
(`results?.[0]?.result || []`). -/
def handlerV1 (tab : Option Tab) (inj : Except String (List String)) :
    Except String HandlerOutcome :=
  match tab with
  | none => Except.error ("TypeError: tab is undefined")
  | some _ =>
    let scripts := match inj with
      | Except.ok l => l
      | Except.error _ => []
    Except.ok ⟨renderV2Rows scripts, true⟩

/-! ## C4: undefined tab id -/

/-- C4 counterexample: in the first script.js variant, a tab whose id is
undefined still triggers the injection call, and the rendered row is the
"No external JS files found." message, not "No active tab found.". -/
theorem detached_tab_first_variant_injects :
    handlerV1 (some ⟨none, none⟩) (Except.error ("No tab with id: undefined")) =
      Except.ok ⟨[Row.info ("No external JS files found.")], true⟩
    ∧ [Row.info ("No external JS files found.")] ≠
        [Row.info ("No active tab found.")] := by
  exact ⟨rfl, by decide⟩

/-- C4 (amended): in the two guarded handlers, whenever the tab id is
falsy the list shows exactly the single "No active tab found." row and
no injection is attempted. -/
theorem guarded_handlers_no_active_tab (tab : Option Tab)
    (inj inj' : Except String (List String)) (h : tabIdFalsy tab) :
    handlerSave tab inj = ⟨[Row.info ("No active tab found.")], false⟩
    ∧ handlerV2 tab inj' = ⟨[Row.info ("No active tab found.")], false⟩ := by
  cases tab with
  | none => exact ⟨rfl, rfl⟩
  | some t =>
    cases t with
    | mk id url =>
      cases id with
      | none => exact ⟨rfl, rfl⟩
      | some i =>
        rcases h with h | h
        · exact absurd h (by simp)
        · have hi : i = 0 := by simpa using h
          subst hi
          exact ⟨rfl, rfl⟩

/-- C4 witness: the query returned no tab. -/
theorem guarded_handlers_no_active_tab_witness :
    tabIdFalsy none
    ∧ handlerSave none (Except.ok []) =
        ⟨[Row.info ("No active tab found.")], false⟩
    ∧ handlerV2 none (Except.ok []) =
        ⟨[Row.info ("No active tab found.")], false⟩ :=
  ⟨trivial,
    (guarded_handlers_no_active_tab none (Except.ok []) (Except.ok []) trivial).1,
    (guarded_handlers_no_active_tab none (Except.ok []) (Except.ok []) trivial).2⟩

/-! ## C5: row count -/

/-- C5 counterexample: a page with two script elements sharing one URL
has one distinct external script URL but the renderer produces two rows. -/
theorem duplicate_srcs_render_two_rows :
    (renderSaveRows (probeScriptSrcs
        [ScriptElem.mk ("https://cdn.a/x.js"), ScriptElem.mk ("https://cdn.a/x.js")])).length ≠
      (probeScriptSrcs
        [ScriptElem.mk ("https://cdn.a/x.js"), ScriptElem.mk ("https://cdn.a/x.js")]).dedup.length := by
  decide

/-- C5 (amended): the renderer produces one row per element of the probe
result list (`max 1` covers the empty case); this equals the number of
distinct URLs exactly when the probe list is duplicate-free; and the
empty probe list renders exactly the single informational row, which
carries no checkbox. -/
theorem renderer_row_count (doc : List ScriptElem) :
    (renderSaveRows (probeScriptSrcs doc)).length = max 1 (probeScriptSrcs doc).length
    ∧ ((probeScriptSrcs doc).Nodup →
        (renderSaveRows (probeScriptSrcs doc)).length =
          max 1 (probeScriptSrcs doc).dedup.length)
    ∧ (probeScriptSrcs doc = [] →
        renderSaveRows (probeScriptSrcs doc) = [Row.info ("No external JS files found.")]) := by
  refine ⟨?_, ?_, ?_⟩
  · rw [renderSaveRows]
    cases h : probeScriptSrcs doc with
    | nil => simp
    | cons a as => simp [Nat.max_eq_right, Nat.succ_le_succ]
  · intro hnd
    rw [List.dedup_eq_self.mpr hnd]
    rw [renderSaveRows]
    cases h : probeScriptSrcs doc with
    | nil => simp
    | cons a as => simp [Nat.max_eq_right, Nat.succ_le_succ]
  · intro h
    rw [h]
    rfl

/-- C5 witness: one script element, hence one duplicate-free URL and one
row. -/
theorem renderer_row_count_witness :
    (probeScriptSrcs [ScriptElem.mk ("https://cdn.a/x.js")]).Nodup
    ∧ (renderSaveRows (probeScriptSrcs [ScriptElem.mk ("https://cdn.a/x.js")])).length =
        max 1 (probeScriptSrcs [ScriptElem.mk ("https://cdn.a/x.js")]).dedup.length :=
  ⟨by decide,
    (renderer_row_count [ScriptElem.mk ("https://cdn.a/x.js")]).2.1 (by decide)⟩

/-! ## C3: URL content as markup -/

/-- C3 counterexample: splicing a URL containing a double quote into the
innerHTML template truncates the parsed `title` attribute at the quote,
so part of the URL escapes the attribute context — the URL content is
interpreted as markup, and the claim fails on the script.js builders. -/
theorem inner_html_title_truncated :
    titleAttrValue (rowInnerHTML ("https://cdn.a/x.js\" onmouseover=\"steal()")) =
      ("https://cdn.a/x.js")
    ∧ ("https://cdn.a/x.js") ≠ ("https://cdn.a/x.js\" onmouseover=\"steal()") := by
  exact ⟨by decide, by decide⟩

/-- C3 (amended): the save-variant builder assigns the URL verbatim as
attribute value and plain text for every URL, while the script.js
builders splice it into parsed HTML where a quote-bearing URL does not
survive attribute parsing. -/
theorem safe_builder_assigns_url_verbatim :
    (∀ src : String, (buildRowSafe src).title = src
      ∧ (buildRowSafe src).text = displayLabel src
      ∧ (buildRowSafe src).hasCheckbox = true)
    ∧ titleAttrValue (rowInnerHTML ("https://cdn.a/x.js\" onmouseover=\"steal()")) ≠
        ("https://cdn.a/x.js\" onmouseover=\"steal()") := by
  refine ⟨fun src => ⟨rfl, rfl, rfl⟩, by decide⟩

/-! ## Persisted record layout (C2) -/

/-- A value persisted in storage: the blocking module stores the Blocked
Map object, the save-variant popup stores a JS array of URL strings. -/
inductive StoredValue where
  | map (m : BlockedMap)
  | arr (l : List String)
deriving DecidableEq, Repr

/-- Whether a stored value is a URL-to-boolean mapping (as opposed to an
array). -/
def StoredValue.isMapShaped : StoredValue → Bool
  | StoredValue.map _ => true
  | StoredValue.arr _ => false

/-- The global storage key of blocking.js. -/
def STORAGE_KEY : String := "blocked_scripts"

/-- The per-tab storage key of the save-variant popup. -/
def perTabStorageKey (tabId : Nat) : String := ("blocked_") ++ toString tabId

/-- The record blocking.js writes: the Blocked Map under the global key. -/
def globalStoredRecord (m : BlockedMap) : String × StoredValue :=
  (STORAGE_KEY, StoredValue.map m)

/-- The save handler's collected data: the `title` of each checked row
(`querySelectorAll("input[type=checkbox]:checked")` mapped to the row's
span title). Rows are (title, checked) pairs. -/
def savedBlocked (rows : List (String × Bool)) : List String :=
  (rows.filter fun r => r.2).map fun r => r.1

/-- The record the save handler writes: an array of URL strings under the
per-tab key. -/
def saveStoredRecord (tabId : Nat) (rows : List (String × Bool)) :
    String × StoredValue :=
  (perTabStorageKey tabId, StoredValue.arr (savedBlocked rows))

theorem objSet_true_values {m : BlockedMap} (k : String)
    (h : ∀ p ∈ m, p.2 = true) : ∀ p ∈ objSet m k true, p.2 = true := by
  induction m with
  | nil =>
      intro p hp
      simp only [objSet, List.mem_singleton] at hp
      simp [hp]
  | cons q rest ih =>
      obtain ⟨k₀, v₀⟩ := q
      intro p hp
      simp only [objSet] at hp
      by_cases hk : k₀ = k
      · rw [if_pos hk] at hp
        rcases List.mem_cons.mp hp with h1 | h1
        · simp [h1]
        · exact h p (List.mem_cons_of_mem _ h1)
      · rw [if_neg hk] at hp
        rcases List.mem_cons.mp hp with h1 | h1
        · subst h1
          exact h _ (List.mem_cons_self _ _)
        · exact ih (fun q hq => h q (List.mem_cons_of_mem _ hq)) p h1

theorem mem_of_mem_objDelete {m : BlockedMap} {k : String} {p : String × Bool}
    (hp : p ∈ objDelete m k) : p ∈ m := by
  induction m with
  | nil => simp [objDelete] at hp
  | cons q rest ih =>
      obtain ⟨k₀, v₀⟩ := q
      simp only [objDelete] at hp
      by_cases hk : k₀ = k
      · rw [if_pos hk] at hp
        exact List.mem_cons_of_mem _ hp
      · rw [if_neg hk] at hp
        rcases List.mem_cons.mp hp with h1 | h1
        · subst h1
          exact List.mem_cons_self _ _
        · exact List.mem_cons_of_mem _ (ih h1)

/-- C2 counterexample: one checked row saved by the save-variant popup is
persisted under the per-tab key as an array of URL strings, not as a
URL-to-true mapping. -/
theorem per_tab_record_is_array_not_map :
    (saveStoredRecord 7 [(("https://cdn.a/x.js"), true)]).2 =
      StoredValue.arr [("https://cdn.a/x.js")]
    ∧ (saveStoredRecord 7 [(("https://cdn.a/x.js"), true)]).2.isMapShaped = false := by
  exact ⟨rfl, rfl⟩

/-- C2 (amended): under the global key the stored value is a mapping in
which every value is `true` (an update preserves this invariant), while
under the per-tab key the stored value is an array of URL strings. -/
theorem stored_record_shapes (store : Option BlockedMap) (u : String) (b : Bool)
    (tabId : Nat) (rows : List (String × Bool))
    (h : ∀ p ∈ getBlockedMap store, p.2 = true) :
    (∀ p ∈ (updateBlockedEntry store u b).2, p.2 = true)
    ∧ (globalStoredRecord (updateBlockedEntry store u b).2).2.isMapShaped = true
    ∧ (saveStoredRecord tabId rows).2.isMapShaped = false := by
  refine ⟨?_, rfl, rfl⟩
  intro p hp
  cases b with
  | true => exact objSet_true_values u h p hp
  | false => exact h p (mem_of_mem_objDelete hp)

/-- C2 witness: updating a concrete all-true map keeps every value `true`. -/
theorem stored_record_shapes_witness :
    (∀ p ∈ getBlockedMap (some [(("https://cdn.b/y.js"), true)]), p.2 = true)
    ∧ ((∀ p ∈ (updateBlockedEntry (some [(("https://cdn.b/y.js"), true)])
            ("https://cdn.a/x.js") true).2, p.2 = true)
        ∧ (globalStoredRecord (updateBlockedEntry (some [(("https://cdn.b/y.js"), true)])
            ("https://cdn.a/x.js") true).2).2.isMapShaped = true
        ∧ (saveStoredRecord 7 [(("https://cdn.a/x.js"), true)]).2.isMapShaped = false) :=
  ⟨by decide,
    stored_record_shapes (some [(("https://cdn.b/y.js"), true)])
      ("https://cdn.a/x.js") true 7 [(("https://cdn.a/x.js"), true)] (by decide)⟩

/-! ## Deriving the URL key of a row (C7) -/

/-- blocking.js `getUrlFromCheckbox`: the raw URL is the row's
`span[title]` attribute; when that is empty the fallback branch assigns
to the `const raw`, which throws a TypeError inside the handler's
rejected promise.  The resolution base is the active tab's URL when
available, else the popup's own location. -/
def getUrlFromCheckbox (urlHref : String → String → Option String)
    (spanTitle : Option String) (srcDivText : Option String)
    (tabUrl : Option String) (popupHref : String) : Except String String :=
  let raw := spanTitle.getD ""
  if raw = "" then
    match srcDivText with
    | some _ => Except.error ("TypeError: invalid assignment to const raw")
    | none => Except.ok (toAbsolute urlHref raw (tabUrl.getD popupHref))
  else Except.ok (toAbsolute urlHref raw (tabUrl.getD popupHref))

/-- blocking.js `init` reconciliation: the lookup key computed for one
row, with the same raw-title choice and the same base selection. -/
def initRowKey (urlHref : String → String → Option String)
    (spanTitle : Option String) (srcText : Option String)
    (tabUrl : Option String) (popupHref : String) : String :=
  let raw := spanTitle.getD ""
  let raw := if raw = "" then srcText.getD "" else raw
  toAbsolute urlHref raw (tabUrl.getD popupHref)

/-- blocking.js `onCheckboxChange`: derive the key; an empty key (or a
thrown TypeError, caught by the handler's `.catch`) leaves the store
untouched, otherwise the entry is updated. -/
def onCheckboxChange (urlHref : String → String → Option String)
    (spanTitle srcDivText tabUrl : Option String) (popupHref : String)
    (checked : Bool) (store : Option BlockedMap) : Option BlockedMap :=
  match getUrlFromCheckbox urlHref spanTitle srcDivText tabUrl popupHref with
  | Except.error _ => store
  | Except.ok urlKey =>
      if urlKey = "" then store
      else (updateBlockedEntry store urlKey checked).1

/-- C7: when the platform URL constructor resolves the row's raw title
`t` against the active tab's URL to the absolute `a`, checking that row
stores exactly the key `a` in the Blocked Map, and the init-time lookup
computes the identical key — matching is exact string equality. -/
theorem blocked_keys_are_resolved_absolute
    (urlHref : String → String → Option String) (t : String)
    (d tabUrl : Option String) (popupHref a : String) (store : Option BlockedMap)
    (ht : t ≠ "") (ha : a ≠ "")
    (hres : urlHref t (tabUrl.getD popupHref) = some a) :
    onCheckboxChange urlHref (some t) d tabUrl popupHref true store =
      some (objSet (getBlockedMap store) a true)
    ∧ initRowKey urlHref (some t) d tabUrl popupHref = a := by
  have hta : toAbsolute urlHref t (tabUrl.getD popupHref) = a := by
    rw [toAbsolute, hres]
  have hkey : getUrlFromCheckbox urlHref (some t) d tabUrl popupHref = Except.ok a := by
    unfold getUrlFromCheckbox
    simp only [Option.getD_some, if_neg ht, hta]
  constructor
  · simp only [onCheckboxChange, hkey, if_neg ha]
    rfl
  · unfold initRowKey
    simp only [Option.getD_some, if_neg ht, hta]

/-- A concrete platform resolver for the spec's own example: `/app.js`
against `https://example.com/page`. -/
def exampleResolver : String → String → Option String :=
  fun _ _ => some ("https://example.com/app.js")

/-- C7 witness: the spec's example — a relative `/app.js` on
`https://example.com/page` is stored and looked up as
`https://example.com/app.js`. -/
theorem blocked_keys_are_resolved_absolute_witness :
    (("/app.js") : String) ≠ ""
    ∧ (("https://example.com/app.js") : String) ≠ ""
    ∧ exampleResolver ("/app.js")
        ((some ("https://example.com/page")).getD ("popup.html")) =
        some ("https://example.com/app.js")
    ∧ onCheckboxChange exampleResolver (some ("/app.js")) none
        (some ("https://example.com/page")) ("popup.html") true none =
        some (objSet (getBlockedMap none) ("https://example.com/app.js") true)
    ∧ initRowKey exampleResolver (some ("/app.js")) none
        (some ("https://example.com/page")) ("popup.html") =
        ("https://example.com/app.js") := by
  refine ⟨by decide, by decide, rfl, ?_, ?_⟩
  · exact (blocked_keys_are_resolved_absolute exampleResolver ("/app.js") none
      (some ("https://example.com/page")) ("popup.html") ("https://example.com/app.js")
      none (by decide) (by decide) rfl).1
  · exact (blocked_keys_are_resolved_absolute exampleResolver ("/app.js") none
      (some ("https://example.com/page")) ("popup.html") ("https://example.com/app.js")
      none (by decide) (by decide) rfl).2

/-! ## Storage error reporting (C8) -/

/-- Outcome of one underlying `chrome.storage` call: the callback's
result argument, or an error left in `chrome.runtime.lastError` (in which
case the result argument is undefined). -/
inductive StorageOutcome (α : Type) where
  | ok (res : α)
  | error (message : String)
deriving DecidableEq, Repr

/-- blocking.js `storageGet` wrapper, `(res) => resolve(res || {})`: it
always resolves; an error collapses to the empty record and the error
message is dropped — the callback never reads `chrome.runtime.lastError`. -/
def storageGetResolved (out : StorageOutcome (List (String × StoredValue))) :
    List (String × StoredValue) :=
  match out with
  | StorageOutcome.ok res => res
  | StorageOutcome.error _ => []

/-- blocking.js `storageSet` / `storageRemoveKey` wrappers,
`() => resolve()`: the value the caller can observe carries no error
indication in either case. -/
def storageSetResolved (out : StorageOutcome Unit) : Option String :=
  match out with
  | StorageOutcome.ok _ => none
  | StorageOutcome.error _ => none

/-- What the save-variant popup's restore callback does: it checks
`chrome.runtime.lastError` first, logs it and stops, otherwise applies
the stored list (`res[storageKey] || []`) to the checkboxes. -/
inductive RestoreAction where
  | logError (message : String)
  | applyChecks (blocked : List String)
deriving DecidableEq, Repr

/-- part_000 storage-get callback. -/
def restoreCallback (lastError : Option String)
    (res : List (String × List String)) (storageKey : String) : RestoreAction :=
  match lastError with
  | some e => RestoreAction.logError e
  | none => RestoreAction.applyChecks ((res.lookup storageKey).getD [])

/-- What the save-variant popup's storage-set callback logs. -/
inductive SaveLogAction where
  | logSetError (message : String)
  | logSaved
deriving DecidableEq, Repr

/-- part_000 storage-set callback. -/
def saveCallback (lastError : Option String) : SaveLogAction :=
  match lastError with
  | some e => SaveLogAction.logSetError e
  | none => SaveLogAction.logSaved

/-- C8 counterexample: a failed read resolves to exactly the same
caller-visible value as a successful read of an empty store, and a failed
write resolves like a successful one — the blocking-module wrappers do
not report the underlying storage error to their caller. -/
theorem storage_error_not_reported :
    storageGetResolved (StorageOutcome.error ("QUOTA_BYTES quota exceeded")) =
      storageGetResolved (StorageOutcome.ok [])
    ∧ storageSetResolved (StorageOutcome.error ("QUOTA_BYTES quota exceeded")) =
        storageSetResolved (StorageOutcome.ok ()) := by
  exact ⟨rfl, rfl⟩

/-- C8 (amended): the blocking-module wrappers never throw — they resolve
with a default on error, silently; only the save-variant popup's direct
storage callbacks check `chrome.runtime.lastError`, log it, and make the
operation a no-op for that call. -/
theorem storage_error_handling (e : String)
    (res : List (String × List String)) (k : String) :
    storageGetResolved (StorageOutcome.error e) = []
    ∧ storageSetResolved (StorageOutcome.error e) = none
    ∧ restoreCallback (some e) res k = RestoreAction.logError e
    ∧ saveCallback (some e) = SaveLogAction.logSetError e
    ∧ restoreCallback none res k =
        RestoreAction.applyChecks ((res.lookup k).getD []) := by
  exact ⟨rfl, rfl, rfl, rfl, rfl⟩

/-! ## Popup initialization ordering (C9) -/

/-- The observable steps of one popup open. -/
inductive PopupEvent where
  | tabQuery
  | injectProbe
  | render
  | attachRefresh
  | attachChangeListener
  | storageRead
  | reconcile
deriving DecidableEq, BEq, Repr

/-- The second script.js handler split at its `await` suspension points:
query, then inject, then render and attach the refresh handler. -/
def popupHandlerSegments : List (List PopupEvent) :=
  [[PopupEvent.tabQuery], [PopupEvent.injectProbe],
    [PopupEvent.render, PopupEvent.attachRefresh]]

/-- blocking.js `init` split the same way: it synchronously attaches the
delegated change listener and starts the restore IIFE up to its first
`await` (the storage read), then awaits the tab query, then reconciles. -/
def initSegments : List (List PopupEvent) :=
  [[PopupEvent.attachChangeListener, PopupEvent.storageRead],
    [PopupEvent.tabQuery], [PopupEvent.reconcile]]

/-- Deterministic event-loop model: two computations whose ready
continuations run in FIFO (round-robin) order. -/
def interleaveSegs : List (List PopupEvent) → List (List PopupEvent) → List PopupEvent
  | [], bs => bs.flatten
  | a :: as, [] => a ++ as.flatten
  | a :: as, b :: bs => a ++ b ++ interleaveSegs as bs

/-- The popup-open trace with the popup script's handler registered
first. -/
def popupTrace : List PopupEvent :=
  interleaveSegs popupHandlerSegments initSegments

/-- The popup-open trace with blocking.js registered first. -/
def popupTraceRev : List PopupEvent :=
  interleaveSegs initSegments popupHandlerSegments

/-- Position of the first occurrence of an event in a trace. -/
def evIdx (t : List PopupEvent) (e : PopupEvent) : Nat :=
  t.findIdx (fun x => x == e)

/-- C9 counterexample: in both registration orders the delegated change
listener is attached strictly before the render and before the
reconciliation — the query→inject→render→reconcile sequence does not
complete before the change handler is attached. -/
theorem change_listener_attached_before_render :
    popupTrace.contains PopupEvent.attachChangeListener = true
    ∧ popupTrace.contains PopupEvent.render = true
    ∧ popupTrace.contains PopupEvent.reconcile = true
    ∧ evIdx popupTrace PopupEvent.attachChangeListener <
        evIdx popupTrace PopupEvent.render
    ∧ evIdx popupTrace PopupEvent.attachChangeListener <
        evIdx popupTrace PopupEvent.reconcile
    ∧ evIdx popupTraceRev PopupEvent.attachChangeListener <
        evIdx popupTraceRev PopupEvent.render := by
  decide

/-- C9 (amended): within one popup open the pipeline itself is ordered —
query before inject before render before reconcile — but the delegated
change listener is attached synchronously before the render completes;
only because no list checkbox exists until the render does no checkbox
change event precede it. -/
theorem popup_pipeline_order :
    evIdx popupTrace PopupEvent.tabQuery < evIdx popupTrace PopupEvent.injectProbe
    ∧ evIdx popupTrace PopupEvent.injectProbe < evIdx popupTrace PopupEvent.render
    ∧ evIdx popupTrace PopupEvent.render < evIdx popupTrace PopupEvent.reconcile
    ∧ evIdx popupTrace PopupEvent.attachChangeListener <
        evIdx popupTrace PopupEvent.render := by
  decide
